import Mathlib

/-!
# Egress transport construction of the cluster-version operator

A shallow embedding of `pkg/cvo/egress.go`: the three methods `getProxyConfig`,
`getTLSConfig` and `getTransport` of `Operator`, followed by the properties of
their results.

Conventions of the embedding.

* A Go pointer result `*T` is an `Option T` (`none` is `nil`); a Go `error`
  result is an `Option GoError` (`none` is the `nil` error).  A Go function
  returning `(*T, error)` returns the pair `Option T × Option GoError`.
* What the file imports from other packages (the API-machinery error
  classifier, the PEM and X.509 decoder, the `httpproxy` URL selection and the
  two namespace constants of `pkg/internal`) is collected in the structure
  `Lib` and is a parameter of every definition that uses it.
* The three listers of the operator are functions from an object name to a
  `LookupResult`: either the object, or a non-nil error.
-/

namespace Cvo

/-! ## Values of the imported packages -/

/-- A non-nil Go `error`: either a plain message (what `errors.New` and
`fmt.Errorf` build) or an API status error that carries a reason. -/
inductive GoError where
  | errorString (text : String)
  | status (reason : String) (text : String)
  deriving DecidableEq, Repr

/-- The method `Error()` of an error: its message. -/
def GoError.Error : GoError → String
  | .errorString text => text
  | .status _ text => text

/-- The function `errors.New`. -/
def errorsNew (text : String) : GoError :=
  .errorString text

/-- A `url.URL`, reduced to the parts a proxy selection looks at. -/
structure URL where
  Scheme : String
  Host : String
  Path : String
  deriving DecidableEq, Repr

/-- An `http.Request`; `URL` is a pointer in Go. -/
structure Request where
  Method : String
  URL : Option URL
  deriving DecidableEq, Repr

/-- The type `httpproxy.Config`. -/
structure Config where
  HTTPProxy : String
  HTTPSProxy : String
  NoProxy : String
  CGI : Bool
  deriving DecidableEq, Repr

/-- The spec half of a `configv1.Proxy`. -/
structure ProxySpec where
  HTTPProxy : String
  HTTPSProxy : String
  NoProxy : String
  ReadinessEndpoints : List String
  TrustedCA : String
  deriving DecidableEq, Repr

/-- The status half of a `configv1.Proxy`. -/
structure ProxyStatus where
  HTTPProxy : String
  HTTPSProxy : String
  NoProxy : String
  deriving DecidableEq, Repr

/-- The cluster proxy object `configv1.Proxy`. -/
structure Proxy where
  Spec : ProxySpec
  Status : ProxyStatus
  deriving DecidableEq, Repr

/-- A Go `map[string]string`; the nil map is the empty list. -/
abbrev StringMap := List (String × String)

/-- The Go index expression `m[k]` on a `map[string]string`: the value stored
under `k`, and the empty string when `k` has no entry. -/
def StringMap.index (m : StringMap) (k : String) : String :=
  (m.lookup k).getD ""

/-- A `corev1.ConfigMap`, reduced to its name, namespace and data. -/
structure ConfigMap where
  Name : String
  Namespace : String
  Data : StringMap
  deriving DecidableEq, Repr

/-- A parsed `x509.Certificate`, identified by its raw encoding. -/
structure Certificate where
  Raw : String
  deriving DecidableEq, Repr

/-- An `x509.CertPool`: the certificates it holds, in insertion order. -/
structure CertPool where
  certs : List Certificate
  deriving DecidableEq, Repr

/-- A `tls.Config`; only `RootCAs` is ever set by this file. -/
structure TLSConfig where
  RootCAs : Option CertPool
  deriving DecidableEq, Repr

/-- The fields of `http.Transport` that `getTransport` assigns.  `Proxy` is a
nilable function from a request pointer to a URL pointer and an error. -/
structure Transport where
  Proxy : Option (Option Request → Option URL × Option GoError)
  TLSClientConfig : Option TLSConfig

/-- What a lister `Get` returns: the object with a nil error, or a nil object
with a non-nil error.  The callers test the error first and read the object
only when the error is nil, so nothing else of a Go pair `(obj, err)` is
observed. -/
inductive LookupResult (α : Type) where
  | found (obj : α)
  | failed (err : GoError)
  deriving DecidableEq, Repr

/-- Apply a function to the object of a successful lookup. -/
def LookupResult.map {α β : Type} (f : α → β) : LookupResult α → LookupResult β
  | .found obj => .found (f obj)
  | .failed err => .failed err

/-- The imported functions and constants the file relies on.

* `IsNotFound` is `apierrors.IsNotFound` on a non-nil error (on the nil error
  it is false, which is the `found` branch of a lookup).
* `ParseCertificates` is the decoding loop of `AppendCertsFromPEM`: the
  certificates of the `CERTIFICATE` blocks of the input that parse, in order.
* `ProxyFunc` is `(*httpproxy.Config).ProxyFunc`.
* `ConfigManagedNamespace` and `ConfigNamespace` are the constants of
  `pkg/internal`. -/
structure Lib where
  IsNotFound : GoError → Bool
  ParseCertificates : String → List Certificate
  ProxyFunc : Config → Option URL → Option URL × Option GoError
  ConfigManagedNamespace : String
  ConfigNamespace : String

/-- The function `x509.NewCertPool`: a pool holding nothing. -/
def NewCertPool : CertPool :=
  { certs := [] }

/-- Adding one certificate to a pool; a certificate already held is not added
a second time. -/
def CertPool.AddCert (s : CertPool) (cert : Certificate) : CertPool :=
  if cert ∈ s.certs then s else { certs := s.certs ++ [cert] }

/-- The method `AppendCertsFromPEM`: every certificate decoded from the input
is added to the pool, and the flag reports whether there was at least one. -/
def CertPool.AppendCertsFromPEM (L : Lib) (s : CertPool) (pemCerts : String) :
    CertPool × Bool :=
  let parsed := L.ParseCertificates pemCerts
  (parsed.foldl CertPool.AddCert s, !parsed.isEmpty)

/-! ## The operator -/

/-- The fields of `Operator` that the egress code reads. -/
structure Operator where
  proxyLister : String → LookupResult Proxy
  cmConfigManagedLister : String → LookupResult ConfigMap
  cmConfigLister : String → LookupResult ConfigMap

/-- The method `getProxyConfig`: the proxy configuration taken from the status
of the proxy object named `cluster`; nil when the object does not exist or the
lookup fails. -/
def getProxyConfig (L : Lib) (optr : Operator) : Option Config × Option GoError :=
  match optr.proxyLister "cluster" with
  | .failed err =>
    if L.IsNotFound err then
      (none, none)
    else
      (none, some err)
  | .found proxy =>
    (some { HTTPProxy := proxy.Status.HTTPProxy
            HTTPSProxy := proxy.Status.HTTPSProxy
            NoProxy := proxy.Status.NoProxy
            CGI := false }, none)

/-- The method `getTLSConfig`. -/
def getTLSConfig (L : Lib) (optr : Operator) (caConfigMap : String) :
    Option TLSConfig × Option GoError :=
  let sel : String × String × String × LookupResult ConfigMap :=
    if caConfigMap = "" then
      (L.ConfigManagedNamespace, "trusted-ca-bundle", "ca-bundle.crt",
        optr.cmConfigManagedLister "trusted-ca-bundle")
    else
      (L.ConfigNamespace, caConfigMap, "ca.crt", optr.cmConfigLister caConfigMap)
  let nspace := sel.1
  let caConfigMap := sel.2.1
  let key := sel.2.2.1
  match sel.2.2.2 with
  | .failed err =>
    if L.IsNotFound err then
      (none, none)
    else
      (none, some err)
  | .found cm =>
    let certPool := NewCertPool
    if cm.Data.index key ≠ "" then
      let appended := certPool.AppendCertsFromPEM L (cm.Data.index key)
      if !appended.2 then
        (none, some (.errorString ("unable to add " ++ key ++ " certificates from the "
          ++ caConfigMap ++ " ConfigMap in the " ++ nspace ++ " namespace")))
      else
        (some { RootCAs := some appended.1 }, none)
    else
      (none, none)

/-- The function literal assigned to `transport.Proxy`. -/
def proxyClosure (proxyFunc : Option URL → Option URL × Option GoError) :
    Option Request → Option URL × Option GoError
  | none => (none, some (errorsNew "cannot calculate proxy URI for nil request"))
  | some req => proxyFunc req.URL

/-- The method `getTransport`: an HTTP transport configuration, including any
custom proxy configuration.  The transport pointer it returns is never nil. -/
def getTransport (L : Lib) (optr : Operator) (caConfigMap : String) :
    Option Transport × Option GoError :=
  let transport : Transport := { Proxy := none, TLSClientConfig := none }
  match getProxyConfig L optr with
  | (_, some err) => (some transport, some err)
  | (proxyConfig, none) =>
    let transport : Transport :=
      match proxyConfig with
      | some proxyConfig =>
        let proxyFunc := L.ProxyFunc proxyConfig
        { transport with Proxy := some (proxyClosure proxyFunc) }
      | none => transport
    match getTLSConfig L optr caConfigMap with
    | (_, some err) => (some transport, some err)
    | (tlsConfig, none) =>
      let transport : Transport :=
        match tlsConfig with
        | some tlsConfig => { transport with TLSClientConfig := some tlsConfig }
        | none => transport
      (some transport, none)

/-! ## Concrete library and operators used to evaluate the code -/

/-- A concrete library: an error is "not found" when it is a status error with
reason `NotFound`, an input decodes to one certificate when it starts with a
certificate header, and the proxy of a URL is picked by its scheme. -/
def exLib : Lib where
  IsNotFound := fun e =>
    match e with
    | .status reason _ => reason == "NotFound"
    | .errorString _ => false
  ParseCertificates := fun pem =>
    if "-----BEGIN CERTIFICATE-----".data.isPrefixOf pem.data then [{ Raw := pem }] else []
  ProxyFunc := fun cfg u =>
    match u with
    | none => (none, none)
    | some u =>
      let p := if u.Scheme = "https" then cfg.HTTPSProxy else cfg.HTTPProxy
      if p = "" then (none, none) else (some { Scheme := "http", Host := p, Path := "" }, none)
  ConfigManagedNamespace := "openshift-config-managed"
  ConfigNamespace := "openshift-config"

/-- The answer of a lister for an object that is not in its cache. -/
def absent (α : Type) (name : String) : LookupResult α :=
  .failed (.status "NotFound" (name ++ " not found"))

/-- A lister error that is not a "not found" condition. -/
def cacheError : GoError :=
  .errorString "cache not synced"

/-- A proxy object whose spec and status differ. -/
def exProxy : Proxy where
  Spec :=
    { HTTPProxy := "http://spec.example:3128"
      HTTPSProxy := "http://spec.example:3129"
      NoProxy := ""
      ReadinessEndpoints := []
      TrustedCA := "user-ca-bundle" }
  Status :=
    { HTTPProxy := "http://proxy.example:8080"
      HTTPSProxy := ""
      NoProxy := "internal.example" }

/-- A certificate bundle that decodes: one self-signed certificate for the
subject `example-root-ca`. -/
def goodPEM : String :=
  "-----BEGIN CERTIFICATE-----\n" ++
  "MIIBiTCCAS+gAwIBAgIUcI8xIr96ij+VIbQjkr2+iH7EKTYwCgYIKoZIzj0EAwIw\n" ++
  "GjEYMBYGA1UEAwwPZXhhbXBsZS1yb290LWNhMB4XDTI2MTEwNDE2NTIwOVoXDTM2\n" ++
  "MTEwMTE2NTIwOVowGjEYMBYGA1UEAwwPZXhhbXBsZS1yb290LWNhMFkwEwYHKoZI\n" ++
  "zj0CAQYIKoZIzj0DAQcDQgAEQit6YL2j3aiRDowqD6JISEJRbILUh2254EHeJlvT\n" ++
  "ljW6xj204JiZsxrT6blB0dQqzX/NTg8poZ7noq1+4A8WH6NTMFEwHQYDVR0OBBYE\n" ++
  "FK7M32uFaAroOfAMoOR/frlDJPzvMB8GA1UdIwQYMBaAFK7M32uFaAroOfAMoOR/\n" ++
  "frlDJPzvMA8GA1UdEwEB/wQFMAMBAf8wCgYIKoZIzj0EAwIDSAAwRQIhAIVfBs5E\n" ++
  "sMukBSV7WbsoD9fGEPOLR3e7qtHD/eKirPF9AiBLBFeMcgS0ngCGrX/9Fa6RXQsT\n" ++
  "4olT2ZX6EIY7b3Ms/A==\n" ++
  "-----END CERTIFICATE-----\n"

/-- A config map holding the given data. -/
def exConfigMap (name nspace : String) (data : StringMap) : ConfigMap where
  Name := name
  Namespace := nspace
  Data := data

/-- An operator with a proxy object, a managed bundle whose content does not
decode, and no caller-specified bundle. -/
def optrProxyBadBundle : Operator where
  proxyLister := fun _ => .found exProxy
  cmConfigManagedLister := fun name =>
    .found (exConfigMap name "openshift-config-managed" [("ca-bundle.crt", "not a certificate")])
  cmConfigLister := fun name => absent ConfigMap name

/-- An operator with no proxy object and whose config map caches fail. -/
def optrNoProxyCacheError : Operator where
  proxyLister := fun name => absent Proxy name
  cmConfigManagedLister := fun _ => .failed cacheError
  cmConfigLister := fun _ => .failed cacheError

/-- An operator whose proxy cache fails and that has no bundle at all. -/
def optrProxyCacheError : Operator where
  proxyLister := fun _ => .failed cacheError
  cmConfigManagedLister := fun name => absent ConfigMap name
  cmConfigLister := fun name => absent ConfigMap name

/-- An operator with no proxy object and no bundle at all. -/
def optrEmpty : Operator where
  proxyLister := fun name => absent Proxy name
  cmConfigManagedLister := fun name => absent ConfigMap name
  cmConfigLister := fun name => absent ConfigMap name

/-- An operator with a proxy object and a caller-specified bundle `my-ca` that
decodes; its managed bundle has no entry under the expected key. -/
def optrProxyGoodBundle : Operator where
  proxyLister := fun _ => .found exProxy
  cmConfigManagedLister := fun name =>
    .found (exConfigMap name "openshift-config-managed" [("ca.crt", goodPEM)])
  cmConfigLister := fun name =>
    if name = "my-ca" then
      .found (exConfigMap name "openshift-config" [("ca.crt", goodPEM), ("ca-bundle.crt", "junk")])
    else absent ConfigMap name

/-- An operator with a proxy object and a managed bundle that holds one
certificate under `ca-bundle.crt`; it has no caller-specified bundle. -/
def optrManagedBundle : Operator where
  proxyLister := fun _ => .found exProxy
  cmConfigManagedLister := fun name =>
    .found (exConfigMap name "openshift-config-managed" [("ca-bundle.crt", goodPEM)])
  cmConfigLister := fun name => absent ConfigMap name

/-- An operator whose managed bundle holds the same certificate under
`ca-bundle.crt` next to another key, with no proxy object and a failing config
cache. -/
def optrManagedBundleOther : Operator where
  proxyLister := fun name => absent Proxy name
  cmConfigManagedLister := fun name =>
    .found (exConfigMap name "elsewhere" [("ca.crt", "junk"), ("ca-bundle.crt", goodPEM)])
  cmConfigLister := fun _ => .failed cacheError

set_option maxRecDepth 20000

/-! ## Auxiliary facts -/

/-- Membership in a pool after adding a list of certificates one by one. -/
theorem mem_foldl_AddCert (l : List Certificate) (s : CertPool) (c : Certificate) :
    c ∈ (l.foldl CertPool.AddCert s).certs ↔ c ∈ s.certs ∨ c ∈ l := by
  induction l generalizing s with
  | nil => simp
  | cons a l ih =>
    rw [List.foldl_cons, ih]
    unfold CertPool.AddCert
    by_cases h : a ∈ s.certs
    · simp only [h, if_true, List.mem_cons]
      constructor
      · rintro (h1 | h1)
        · exact Or.inl h1
        · exact Or.inr (Or.inr h1)
      · rintro (h1 | h1 | h1)
        · exact Or.inl h1
        · exact Or.inl (h1 ▸ h)
        · exact Or.inr h1
    · simp only [h, if_false, List.mem_append, List.mem_singleton, List.mem_cons]
      tauto

/-- Adding certificates one by one keeps a duplicate-free pool duplicate-free. -/
theorem nodup_foldl_AddCert (l : List Certificate) (s : CertPool) (hs : s.certs.Nodup) :
    (l.foldl CertPool.AddCert s).certs.Nodup := by
  induction l generalizing s with
  | nil => simpa using hs
  | cons a l ih =>
    rw [List.foldl_cons]
    apply ih
    unfold CertPool.AddCert
    by_cases h : a ∈ s.certs
    · simpa [h] using hs
    · simp only [h, if_false]
      exact List.Nodup.append hs (List.nodup_singleton a) (by simpa using h)

/-- The trust lookup when the selected lister fails. -/
theorem getTLSConfig_of_failed (L : Lib) (optr : Operator) (caConfigMap : String) (err : GoError)
    (h : (if caConfigMap = "" then optr.cmConfigManagedLister "trusted-ca-bundle"
          else optr.cmConfigLister caConfigMap) = .failed err) :
    getTLSConfig L optr caConfigMap =
      if L.IsNotFound err then (none, none) else (none, some err) := by
  unfold getTLSConfig
  by_cases hn : caConfigMap = ""
  · simp only [hn, if_true] at h ⊢
    rw [h]
  · simp only [hn, if_false] at h ⊢
    rw [h]

/-- The trust lookup when the selected lister finds the object. -/
theorem getTLSConfig_of_found (L : Lib) (optr : Operator) (caConfigMap : String) (cm : ConfigMap)
    (h : (if caConfigMap = "" then optr.cmConfigManagedLister "trusted-ca-bundle"
          else optr.cmConfigLister caConfigMap) = .found cm) :
    getTLSConfig L optr caConfigMap =
      if cm.Data.index (if caConfigMap = "" then "ca-bundle.crt" else "ca.crt") = "" then
        (none, none)
      else if L.ParseCertificates
          (cm.Data.index (if caConfigMap = "" then "ca-bundle.crt" else "ca.crt")) = [] then
        (none, some (.errorString
          (if caConfigMap = "" then
            "unable to add ca-bundle.crt certificates from the trusted-ca-bundle ConfigMap in the "
              ++ L.ConfigManagedNamespace ++ " namespace"
          else
            "unable to add ca.crt certificates from the " ++ caConfigMap
              ++ " ConfigMap in the " ++ L.ConfigNamespace ++ " namespace")))
      else
        (some ⟨some ((L.ParseCertificates (cm.Data.index
          (if caConfigMap = "" then "ca-bundle.crt" else "ca.crt"))).foldl
            CertPool.AddCert NewCertPool)⟩, none) := by
  unfold getTLSConfig
  by_cases hn : caConfigMap = ""
  · simp only [hn, if_true] at h ⊢
    rw [h]
    by_cases hv : StringMap.index cm.Data "ca-bundle.crt" = ""
    · simp [hv]
    · by_cases hp : L.ParseCertificates (StringMap.index cm.Data "ca-bundle.crt") = []
      · simp [hv, hp, CertPool.AppendCertsFromPEM, String.append_assoc]
      · simp [hv, hp, CertPool.AppendCertsFromPEM]
  · simp only [hn, if_false] at h ⊢
    rw [h]
    by_cases hv : StringMap.index cm.Data "ca.crt" = ""
    · simp [hv]
    · by_cases hp : L.ParseCertificates (StringMap.index cm.Data "ca.crt") = []
      · simp [hv, hp, CertPool.AppendCertsFromPEM, String.append_assoc]
      · simp [hv, hp, CertPool.AppendCertsFromPEM]

/-- The proxy lookup when the lister finds the object. -/
theorem getProxyConfig_of_found (L : Lib) (optr : Operator) (proxy : Proxy)
    (h : optr.proxyLister "cluster" = .found proxy) :
    getProxyConfig L optr =
      (some ⟨proxy.Status.HTTPProxy, proxy.Status.HTTPSProxy, proxy.Status.NoProxy, false⟩,
        none) := by
  unfold getProxyConfig
  rw [h]

/-- The proxy lookup when the lister fails. -/
theorem getProxyConfig_of_failed (L : Lib) (optr : Operator) (err : GoError)
    (h : optr.proxyLister "cluster" = .failed err) :
    getProxyConfig L optr = if L.IsNotFound err then (none, none) else (none, some err) := by
  unfold getProxyConfig
  rw [h]

/-- The transport when proxy resolution returns an error. -/
theorem getTransport_of_proxy_error (L : Lib) (optr : Operator) (caConfigMap : String)
    (c : Option Config) (err : GoError) (h : getProxyConfig L optr = (c, some err)) :
    getTransport L optr caConfigMap = (some ⟨none, none⟩, some err) := by
  unfold getTransport
  rw [h]

/-- The transport when proxy resolution returns no error: the proxy function
wraps the configuration (when there is one), and the trust configuration and
the error are those of the trust lookup. -/
theorem getTransport_of_proxy_ok (L : Lib) (optr : Operator) (caConfigMap : String)
    (c : Option Config) (h : getProxyConfig L optr = (c, none)) :
    getTransport L optr caConfigMap =
      (some ⟨c.map (fun cfg => proxyClosure (L.ProxyFunc cfg)),
          match (getTLSConfig L optr caConfigMap).2 with
          | some _ => none
          | none => (getTLSConfig L optr caConfigMap).1⟩,
        (getTLSConfig L optr caConfigMap).2) := by
  unfold getTransport
  rw [h]
  rcases htls : getTLSConfig L optr caConfigMap with ⟨cfg, _ | e⟩
  · cases c <;> cases cfg <;> rfl
  · cases c <;> rfl

/-! ## Properties of the transport construction -/

/-- C1: for every bundle name, when the proxy lister finds the proxy object and
trust resolution fails (the selected config map lister fails with an error that
is not "not found", or the object is found with non-empty content at the
expected key from which no certificate decodes), `getTransport` returns a
non-nil transport whose `Proxy` function is set and whose `TLSClientConfig` is
nil, together with exactly the error `getTLSConfig` returns. -/
theorem getTransport_trust_failure_keeps_proxy (L : Lib) (optr : Operator)
    (caConfigMap : String) (proxy : Proxy)
    (hproxy : optr.proxyLister "cluster" = .found proxy)
    (htrust :
      (∃ err, (if caConfigMap = "" then optr.cmConfigManagedLister "trusted-ca-bundle"
            else optr.cmConfigLister caConfigMap) = .failed err ∧ L.IsNotFound err = false) ∨
      (∃ cm, (if caConfigMap = "" then optr.cmConfigManagedLister "trusted-ca-bundle"
            else optr.cmConfigLister caConfigMap) = .found cm ∧
          cm.Data.index (if caConfigMap = "" then "ca-bundle.crt" else "ca.crt") ≠ "" ∧
          L.ParseCertificates
            (cm.Data.index (if caConfigMap = "" then "ca-bundle.crt" else "ca.crt")) = [])) :
    ∃ t err, getTLSConfig L optr caConfigMap = (none, some err) ∧
      getTransport L optr caConfigMap = (some t, some err) ∧
      t.Proxy.isSome = true ∧ t.TLSClientConfig = none := by
  have hp := getProxyConfig_of_found L optr proxy hproxy
  have ht := getTransport_of_proxy_ok L optr caConfigMap _ hp
  rcases htrust with ⟨err, hl, hnf⟩ | ⟨cm, hl, hne, hbad⟩
  · have htls := getTLSConfig_of_failed L optr caConfigMap err hl
    simp only [hnf] at htls
    rw [htls] at ht
    exact ⟨_, err, by simpa using htls, ht, rfl, rfl⟩
  · have htls := getTLSConfig_of_found L optr caConfigMap cm hl
    rw [if_neg hne, if_pos hbad] at htls
    rw [htls] at ht
    exact ⟨_, _, htls, ht, rfl, rfl⟩

/-- Witness of C1: a proxy object is found and the managed bundle holds
content that does not decode. -/
theorem getTransport_trust_failure_keeps_proxy_witness :
    ∃ t err, getTLSConfig exLib optrProxyBadBundle "" = (none, some err) ∧
      getTransport exLib optrProxyBadBundle "" = (some t, some err) ∧
      t.Proxy.isSome = true ∧ t.TLSClientConfig = none :=
  getTransport_trust_failure_keeps_proxy exLib optrProxyBadBundle "" exProxy rfl
    (Or.inr ⟨exConfigMap "trusted-ca-bundle" "openshift-config-managed"
      [("ca-bundle.crt", "not a certificate")], rfl, by decide, by decide⟩)

/-- C2: when the selected lister finds a config map whose value at the
expected key is non-empty and no certificate decodes from it, `getTLSConfig`
returns a nil configuration and an error whose message names the key, the
object name and the namespace used: `ca-bundle.crt`, `trusted-ca-bundle` and
the managed namespace for the empty bundle name; `ca.crt`, the name given by
the caller and the config namespace otherwise. -/
theorem getTLSConfig_undecodable_error (L : Lib) (optr : Operator) (caConfigMap : String)
    (cm : ConfigMap)
    (hfound : (if caConfigMap = "" then optr.cmConfigManagedLister "trusted-ca-bundle"
          else optr.cmConfigLister caConfigMap) = .found cm)
    (hne : cm.Data.index (if caConfigMap = "" then "ca-bundle.crt" else "ca.crt") ≠ "")
    (hbad : L.ParseCertificates
        (cm.Data.index (if caConfigMap = "" then "ca-bundle.crt" else "ca.crt")) = []) :
    ∃ err, getTLSConfig L optr caConfigMap = (none, some err) ∧
      err.Error =
        (if caConfigMap = "" then
          "unable to add ca-bundle.crt certificates from the trusted-ca-bundle ConfigMap in the "
            ++ L.ConfigManagedNamespace ++ " namespace"
        else
          "unable to add ca.crt certificates from the " ++ caConfigMap
            ++ " ConfigMap in the " ++ L.ConfigNamespace ++ " namespace") := by
  have htls := getTLSConfig_of_found L optr caConfigMap cm hfound
  rw [if_neg hne, if_pos hbad] at htls
  exact ⟨_, htls, rfl⟩

/-- Witness of C2: the managed bundle of the operator holds content that does
not decode. -/
theorem getTLSConfig_undecodable_error_witness :
    ∃ err, getTLSConfig exLib optrProxyBadBundle "" = (none, some err) ∧
      err.Error = "unable to add ca-bundle.crt certificates from the trusted-ca-bundle ConfigMap in the openshift-config-managed namespace" :=
  getTLSConfig_undecodable_error exLib optrProxyBadBundle ""
    (exConfigMap "trusted-ca-bundle" "openshift-config-managed"
      [("ca-bundle.crt", "not a certificate")]) rfl (by decide) (by decide)

/-- C3: when the selected lister finds a config map (in either mode) that has
no entry for the expected key, or the empty string there, `getTLSConfig`
returns a nil configuration and a nil error, whatever the other keys hold. -/
theorem getTLSConfig_empty_key (L : Lib) (optr : Operator) (caConfigMap : String)
    (cm : ConfigMap)
    (hfound : (if caConfigMap = "" then optr.cmConfigManagedLister "trusted-ca-bundle"
          else optr.cmConfigLister caConfigMap) = .found cm)
    (hempty : cm.Data.lookup (if caConfigMap = "" then "ca-bundle.crt" else "ca.crt") = none ∨
      cm.Data.lookup (if caConfigMap = "" then "ca-bundle.crt" else "ca.crt") = some "") :
    getTLSConfig L optr caConfigMap = (none, none) := by
  have htls := getTLSConfig_of_found L optr caConfigMap cm hfound
  have hidx : cm.Data.index (if caConfigMap = "" then "ca-bundle.crt" else "ca.crt") = "" := by
    unfold StringMap.index
    rcases hempty with h | h <;> rw [h] <;> rfl
  rw [if_pos hidx] at htls
  exact htls

/-- Witness of C3: the managed bundle of the operator has an entry under
`ca.crt` only, so the expected key `ca-bundle.crt` is missing. -/
theorem getTLSConfig_empty_key_witness :
    getTLSConfig exLib optrProxyGoodBundle "" = (none, none) :=
  getTLSConfig_empty_key exLib optrProxyGoodBundle ""
    (exConfigMap "trusted-ca-bundle" "openshift-config-managed" [("ca.crt", goodPEM)])
    rfl (Or.inl (by decide))

/-- C4, as stated, fails: with the proxy object absent and a config map cache
that fails with another error, `getTransport` returns a non-nil error. -/
theorem getTransport_no_proxy_may_fail :
    optrNoProxyCacheError.proxyLister "cluster" = absent Proxy "cluster" ∧
      exLib.IsNotFound (.status "NotFound" ("cluster" ++ " not found")) = true ∧
      (getTransport exLib optrNoProxyCacheError "").2 = some cacheError := by
  refine ⟨rfl, by decide, by decide⟩

/-- C4, amended: when the proxy lister reports "not found" for `cluster`,
`getTransport` returns a non-nil transport whose `Proxy` is nil, and its error
is exactly the error of `getTLSConfig`: no error when trust resolution does not
fail. -/
theorem getTransport_no_proxy (L : Lib) (optr : Operator) (caConfigMap : String)
    (err : GoError)
    (hlookup : optr.proxyLister "cluster" = .failed err)
    (hnf : L.IsNotFound err = true) :
    getProxyConfig L optr = (none, none) ∧
    ∃ t, getTransport L optr caConfigMap = (some t, (getTLSConfig L optr caConfigMap).2) ∧
      t.Proxy = none ∧
      ((getTLSConfig L optr caConfigMap).2 = none →
        getTransport L optr caConfigMap = (some t, none) ∧
          t.TLSClientConfig = (getTLSConfig L optr caConfigMap).1) := by
  have hp := getProxyConfig_of_failed L optr err hlookup
  rw [if_pos hnf] at hp
  have ht := getTransport_of_proxy_ok L optr caConfigMap _ hp
  refine ⟨hp, _, ht, rfl, ?_⟩
  intro h
  rw [ht, h]
  exact ⟨rfl, rfl⟩

/-- Witness of C4 amended: no proxy object and no bundle at all. -/
theorem getTransport_no_proxy_witness :
    getProxyConfig exLib optrEmpty = (none, none) ∧
    ∃ t, getTransport exLib optrEmpty "" = (some t, (getTLSConfig exLib optrEmpty "").2) ∧
      t.Proxy = none ∧
      ((getTLSConfig exLib optrEmpty "").2 = none →
        getTransport exLib optrEmpty "" = (some t, none) ∧
          t.TLSClientConfig = (getTLSConfig exLib optrEmpty "").1) :=
  getTransport_no_proxy exLib optrEmpty "" (.status "NotFound" ("cluster" ++ " not found"))
    rfl (by decide)

/-- C5, as stated, fails: with both bundles absent and a proxy cache that fails
with an error other than "not found", `getTransport` returns a non-nil error,
in the managed mode and in the caller-specified mode. -/
theorem getTransport_no_bundle_may_fail :
    optrProxyCacheError.cmConfigManagedLister "trusted-ca-bundle" =
        absent ConfigMap "trusted-ca-bundle" ∧
      optrProxyCacheError.cmConfigLister "my-ca" = absent ConfigMap "my-ca" ∧
      exLib.IsNotFound (.status "NotFound" ("trusted-ca-bundle" ++ " not found")) = true ∧
      exLib.IsNotFound (.status "NotFound" ("my-ca" ++ " not found")) = true ∧
      (getTransport exLib optrProxyCacheError "").2 = some cacheError ∧
      (getTransport exLib optrProxyCacheError "my-ca").2 = some cacheError := by
  refine ⟨rfl, rfl, by decide, by decide, by decide, by decide⟩

/-- C5, amended: when the selected config map lister reports "not found" (for
`trusted-ca-bundle` with the empty bundle name, for the given name otherwise),
`getTransport` returns a non-nil transport whose `TLSClientConfig` is nil, and
its error is exactly the error of `getProxyConfig`: no error when proxy
resolution does not fail. -/
theorem getTransport_no_bundle (L : Lib) (optr : Operator) (caConfigMap : String)
    (err : GoError)
    (hlookup : (if caConfigMap = "" then optr.cmConfigManagedLister "trusted-ca-bundle"
          else optr.cmConfigLister caConfigMap) = .failed err)
    (hnf : L.IsNotFound err = true) :
    getTLSConfig L optr caConfigMap = (none, none) ∧
    ∃ t, getTransport L optr caConfigMap = (some t, (getProxyConfig L optr).2) ∧
      t.TLSClientConfig = none := by
  have htls := getTLSConfig_of_failed L optr caConfigMap err hlookup
  rw [if_pos hnf] at htls
  refine ⟨htls, ?_⟩
  rcases hp : getProxyConfig L optr with ⟨c, _ | e⟩
  · have ht := getTransport_of_proxy_ok L optr caConfigMap c hp
    rw [htls] at ht
    exact ⟨_, ht, rfl⟩
  · exact ⟨_, getTransport_of_proxy_error L optr caConfigMap c e hp, rfl⟩

/-- Witness of C5 amended: a proxy object is found and the caller-specified
bundle `other-ca` is absent. -/
theorem getTransport_no_bundle_witness :
    getTLSConfig exLib optrProxyGoodBundle "other-ca" = (none, none) ∧
    ∃ t, getTransport exLib optrProxyGoodBundle "other-ca" =
        (some t, (getProxyConfig exLib optrProxyGoodBundle).2) ∧
      t.TLSClientConfig = none :=
  getTransport_no_bundle exLib optrProxyGoodBundle "other-ca"
    (.status "NotFound" ("other-ca" ++ " not found")) (by decide) (by decide)

/-- C6, as stated, fails twice.  With a proxy object found, the `Proxy`
function of the transport answers the nil request with the message
`cannot calculate proxy URI for nil request`, which is not the message
`cannot calculate proxy for nil request`; and with no proxy object the
transport has no `Proxy` function to call at all. -/
theorem getTransport_nil_request_message_differs :
    (∃ t f, getTransport exLib optrProxyGoodBundle "" = (some t, none) ∧ t.Proxy = some f ∧
        (f none).1 = none ∧
        (f none).2.map GoError.Error = some "cannot calculate proxy URI for nil request" ∧
        (f none).2.map GoError.Error ≠ some "cannot calculate proxy for nil request") ∧
      (∃ t, getTransport exLib optrEmpty "" = (some t, none) ∧ t.Proxy.isNone = true) := by
  refine ⟨⟨_, _, rfl, rfl, rfl, rfl, by decide⟩, ⟨_, rfl, rfl⟩⟩

/-- C6, amended: `getTransport` always returns a non-nil transport.  When the
proxy lister finds the proxy object, the transport has a `Proxy` function and,
given a nil request, it returns no URL and an error with the message
`cannot calculate proxy URI for nil request`, whatever the fields of the proxy
object and whatever trust resolution yields.  When the proxy lookup fails (with
"not found" or any other error), the transport has no `Proxy` function. -/
theorem getTransport_proxy_nil_request (L : Lib) (optr : Operator) (caConfigMap : String) :
    ∃ t, (getTransport L optr caConfigMap).1 = some t ∧
      match optr.proxyLister "cluster" with
      | .found _ =>
        ∃ f err, t.Proxy = some f ∧ f none = (none, some err) ∧
          err.Error = "cannot calculate proxy URI for nil request"
      | .failed _ => t.Proxy = none := by
  rcases hl : optr.proxyLister "cluster" with proxy | err
  · have hp := getProxyConfig_of_found L optr proxy hl
    have ht := getTransport_of_proxy_ok L optr caConfigMap _ hp
    rw [ht]
    exact ⟨_, rfl, _, _, rfl, rfl, rfl⟩
  · have hp := getProxyConfig_of_failed L optr err hl
    by_cases hnf : L.IsNotFound err = true
    · rw [if_pos hnf] at hp
      have ht := getTransport_of_proxy_ok L optr caConfigMap _ hp
      rw [ht]
      exact ⟨_, rfl, rfl⟩
    · rw [if_neg hnf] at hp
      have ht := getTransport_of_proxy_error L optr caConfigMap _ err hp
      rw [ht]
      exact ⟨_, rfl, rfl⟩

/-- C7: when the proxy lister fails with an error that is not "not found",
`getProxyConfig` returns a nil configuration with that error, and
`getTransport` returns that error with a non-nil transport that has neither a
`Proxy` function nor a `TLSClientConfig`, whatever the config map listers
answer. -/
theorem getTransport_proxy_error (L : Lib) (optr : Operator) (caConfigMap : String)
    (err : GoError)
    (hlookup : optr.proxyLister "cluster" = .failed err)
    (hnf : L.IsNotFound err = false) :
    getProxyConfig L optr = (none, some err) ∧
      ∃ t, getTransport L optr caConfigMap = (some t, some err) ∧
        t.Proxy = none ∧ t.TLSClientConfig = none := by
  have hp := getProxyConfig_of_failed L optr err hlookup
  simp only [hnf] at hp
  have hp2 : getProxyConfig L optr = (none, some err) := by simpa using hp
  exact ⟨hp2, _, getTransport_of_proxy_error L optr caConfigMap _ err hp2, rfl, rfl⟩

/-- Witness of C7: the proxy cache is not synced. -/
theorem getTransport_proxy_error_witness :
    getProxyConfig exLib optrProxyCacheError = (none, some cacheError) ∧
      ∃ t, getTransport exLib optrProxyCacheError "my-ca" = (some t, some cacheError) ∧
        t.Proxy = none ∧ t.TLSClientConfig = none :=
  getTransport_proxy_error exLib optrProxyCacheError "my-ca" cacheError rfl (by decide)

/-- C8: `getTLSConfig` selects its lookup by the emptiness of the bundle name.
With the empty name its result is computed from the answer of the managed
lister for `trusted-ca-bundle` and the value of that object at key
`ca-bundle.crt`; with a non-empty name it is computed from the answer of the
config lister for that name and the value of that object at key `ca.crt`.  The
result is given in full as a function of that answer: "not found" gives
nothing, another error is returned, an empty value gives nothing, a value from
which no certificate decodes gives the error message, and any other value
gives the pool of its certificates.  Hence two operators whose selected answers
agree up to the value at the expected key give the same result: the other
lister and the other keys do not matter. -/
theorem getTLSConfig_depends_on_selected_lookup (L : Lib) (optr₁ optr₂ : Operator)
    (caConfigMap : String)
    (hsame :
      (if caConfigMap = "" then
        (optr₁.cmConfigManagedLister "trusted-ca-bundle").map
          (fun cm => cm.Data.index "ca-bundle.crt")
      else (optr₁.cmConfigLister caConfigMap).map (fun cm => cm.Data.index "ca.crt")) =
      (if caConfigMap = "" then
        (optr₂.cmConfigManagedLister "trusted-ca-bundle").map
          (fun cm => cm.Data.index "ca-bundle.crt")
      else (optr₂.cmConfigLister caConfigMap).map (fun cm => cm.Data.index "ca.crt"))) :
    getTLSConfig L optr₁ caConfigMap = getTLSConfig L optr₂ caConfigMap ∧
    getTLSConfig L optr₁ caConfigMap =
      match (if caConfigMap = "" then
          (optr₁.cmConfigManagedLister "trusted-ca-bundle").map
            (fun cm => cm.Data.index "ca-bundle.crt")
        else (optr₁.cmConfigLister caConfigMap).map (fun cm => cm.Data.index "ca.crt")) with
      | .failed err => if L.IsNotFound err then (none, none) else (none, some err)
      | .found value =>
        if value = "" then (none, none)
        else if L.ParseCertificates value = [] then
          (none, some (.errorString
            (if caConfigMap = "" then
              "unable to add ca-bundle.crt certificates from the trusted-ca-bundle ConfigMap in the "
                ++ L.ConfigManagedNamespace ++ " namespace"
            else
              "unable to add ca.crt certificates from the " ++ caConfigMap
                ++ " ConfigMap in the " ++ L.ConfigNamespace ++ " namespace")))
        else
          (some ⟨some (NewCertPool.AppendCertsFromPEM L value).1⟩, none) := by
  have key : ∀ optr : Operator, getTLSConfig L optr caConfigMap =
      match (if caConfigMap = "" then
          (optr.cmConfigManagedLister "trusted-ca-bundle").map
            (fun cm => cm.Data.index "ca-bundle.crt")
        else (optr.cmConfigLister caConfigMap).map (fun cm => cm.Data.index "ca.crt")) with
      | .failed err => if L.IsNotFound err then (none, none) else (none, some err)
      | .found value =>
        if value = "" then (none, none)
        else if L.ParseCertificates value = [] then
          (none, some (.errorString
            (if caConfigMap = "" then
              "unable to add ca-bundle.crt certificates from the trusted-ca-bundle ConfigMap in the "
                ++ L.ConfigManagedNamespace ++ " namespace"
            else
              "unable to add ca.crt certificates from the " ++ caConfigMap
                ++ " ConfigMap in the " ++ L.ConfigNamespace ++ " namespace")))
        else
          (some ⟨some (NewCertPool.AppendCertsFromPEM L value).1⟩, none) := by
    intro optr
    rcases h : (if caConfigMap = "" then optr.cmConfigManagedLister "trusted-ca-bundle"
        else optr.cmConfigLister caConfigMap) with cm | e
    · rw [getTLSConfig_of_found L optr caConfigMap cm h]
      by_cases hn : caConfigMap = ""
      · simp only [hn, if_true] at h ⊢
        rw [h]
        rfl
      · simp only [hn, if_false] at h ⊢
        rw [h]
        rfl
    · rw [getTLSConfig_of_failed L optr caConfigMap e h]
      by_cases hn : caConfigMap = ""
      · simp only [hn, if_true] at h ⊢
        rw [h]
        rfl
      · simp only [hn, if_false] at h ⊢
        rw [h]
        rfl
  refine ⟨?_, key optr₁⟩
  rw [key optr₁, key optr₂, hsame]

/-- Witness of C8: in managed mode two operators whose managed bundle holds the
same certificate under `ca-bundle.crt`, and that differ in their proxy lister,
in their config lister and in the other keys of the bundle, give the same trust
configuration, which is the pool holding that certificate. -/
theorem getTLSConfig_depends_on_selected_lookup_witness :
    getTLSConfig exLib optrManagedBundle "" = getTLSConfig exLib optrManagedBundleOther "" ∧
    getTLSConfig exLib optrManagedBundle "" = (some ⟨some ⟨[⟨goodPEM⟩]⟩⟩, none) :=
  getTLSConfig_depends_on_selected_lookup exLib optrManagedBundle optrManagedBundleOther ""
    (by decide)

/-- C9: when the proxy lister finds the object named `cluster`,
`getProxyConfig` returns without error a configuration whose `HTTPProxy`,
`HTTPSProxy` and `NoProxy` are the status fields of the object (replacing the
spec of the object changes nothing), and for every non-nil request the `Proxy`
function of the transport returns exactly what the `ProxyFunc` of that
configuration returns for the URL of the request. -/
theorem getProxyConfig_copies_status (L : Lib) (optr : Operator) (caConfigMap : String)
    (proxy : Proxy)
    (hlookup : optr.proxyLister "cluster" = .found proxy) :
    ∃ cfg, getProxyConfig L optr = (some cfg, none) ∧
      cfg.HTTPProxy = proxy.Status.HTTPProxy ∧
      cfg.HTTPSProxy = proxy.Status.HTTPSProxy ∧
      cfg.NoProxy = proxy.Status.NoProxy ∧
      (∀ spec : ProxySpec,
        getProxyConfig L { optr with proxyLister := fun _ => .found { proxy with Spec := spec } } =
          (some cfg, none)) ∧
      ∃ t f, (getTransport L optr caConfigMap).1 = some t ∧ t.Proxy = some f ∧
        ∀ req : Request, f (some req) = L.ProxyFunc cfg req.URL := by
  have hp := getProxyConfig_of_found L optr proxy hlookup
  have ht := getTransport_of_proxy_ok L optr caConfigMap _ hp
  refine ⟨_, hp, rfl, rfl, rfl, ?_, ?_⟩
  · intro spec
    exact getProxyConfig_of_found L _ { proxy with Spec := spec } rfl
  · rw [ht]
    exact ⟨_, _, rfl, rfl, fun _ => rfl⟩

/-- Witness of C9: the proxy object has a status that differs from its spec. -/
theorem getProxyConfig_copies_status_witness :
    ∃ cfg, getProxyConfig exLib optrProxyBadBundle = (some cfg, none) ∧
      cfg.HTTPProxy = "http://proxy.example:8080" ∧
      cfg.HTTPSProxy = "" ∧
      cfg.NoProxy = "internal.example" ∧
      (∀ spec : ProxySpec,
        getProxyConfig exLib
          { optrProxyBadBundle with
            proxyLister := fun _ => .found { exProxy with Spec := spec } } =
          (some cfg, none)) ∧
      ∃ t f, (getTransport exLib optrProxyBadBundle "").1 = some t ∧ t.Proxy = some f ∧
        ∀ req : Request, f (some req) = exLib.ProxyFunc cfg req.URL :=
  getProxyConfig_copies_status exLib optrProxyBadBundle "" exProxy rfl

/-- C10: when the selected lister finds a config map whose value at the
expected key is non-empty and at least one certificate decodes from it,
`getTLSConfig` returns without error a non-nil configuration whose `RootCAs` is
the pool obtained from a new, empty pool by `AppendCertsFromPEM` on that value:
it holds exactly the certificates decoded from that value, each once.  When
proxy resolution does not fail, `getTransport` attaches that configuration as
`TLSClientConfig` and returns no error. -/
theorem getTLSConfig_decodable_bundle (L : Lib) (optr : Operator) (caConfigMap : String)
    (cm : ConfigMap)
    (hfound : (if caConfigMap = "" then optr.cmConfigManagedLister "trusted-ca-bundle"
          else optr.cmConfigLister caConfigMap) = .found cm)
    (hne : cm.Data.index (if caConfigMap = "" then "ca-bundle.crt" else "ca.crt") ≠ "")
    (hgood : L.ParseCertificates
        (cm.Data.index (if caConfigMap = "" then "ca-bundle.crt" else "ca.crt")) ≠ []) :
    ∃ pool, getTLSConfig L optr caConfigMap = (some ⟨some pool⟩, none) ∧
      pool = (NewCertPool.AppendCertsFromPEM L
        (cm.Data.index (if caConfigMap = "" then "ca-bundle.crt" else "ca.crt"))).1 ∧
      (∀ c, c ∈ pool.certs ↔ c ∈ L.ParseCertificates
        (cm.Data.index (if caConfigMap = "" then "ca-bundle.crt" else "ca.crt"))) ∧
      pool.certs.Nodup ∧
      ((getProxyConfig L optr).2 = none →
        ∃ t, getTransport L optr caConfigMap = (some t, none) ∧
          t.TLSClientConfig = some ⟨some pool⟩) := by
  have htls := getTLSConfig_of_found L optr caConfigMap cm hfound
  rw [if_neg hne, if_neg hgood] at htls
  refine ⟨_, htls, rfl, ?_, ?_, ?_⟩
  · intro c
    rw [mem_foldl_AddCert]
    simp [NewCertPool]
  · exact nodup_foldl_AddCert _ _ (by simp [NewCertPool])
  · intro hok
    rcases hp : getProxyConfig L optr with ⟨c, e⟩
    rw [hp] at hok
    simp only at hok
    subst hok
    have ht := getTransport_of_proxy_ok L optr caConfigMap c hp
    rw [htls] at ht
    exact ⟨_, ht, rfl⟩

/-- Witness of C10: the caller-specified bundle `my-ca` holds one certificate
under `ca.crt` and junk under another key. -/
theorem getTLSConfig_decodable_bundle_witness :
    ∃ pool, getTLSConfig exLib optrProxyGoodBundle "my-ca" = (some ⟨some pool⟩, none) ∧
      pool = (NewCertPool.AppendCertsFromPEM exLib goodPEM).1 ∧
      (∀ c, c ∈ pool.certs ↔ c ∈ exLib.ParseCertificates goodPEM) ∧
      pool.certs.Nodup ∧
      ((getProxyConfig exLib optrProxyGoodBundle).2 = none →
        ∃ t, getTransport exLib optrProxyGoodBundle "my-ca" = (some t, none) ∧
          t.TLSClientConfig = some ⟨some pool⟩) :=
  getTLSConfig_decodable_bundle exLib optrProxyGoodBundle "my-ca"
    (exConfigMap "my-ca" "openshift-config" [("ca.crt", goodPEM), ("ca-bundle.crt", "junk")])
    (by decide) (by decide) (by decide)

end Cvo
